import Mathlib

/-!
Verification of flask-whoosh (`flask_whoosh.py`).

A shallow embedding of the flask-whoosh extension: the searcher pool
(`WhooshManager`), the request-scoped `searcher`/`writer` properties and
`teardown` hook of the `Whoosh` class, the `init_index` directory-state
logic, and the `DirectoryAlreadyExists` error.

Modelling conventions:
* A Whoosh searcher is modelled by the snapshot generation it was born at
  (`bornGen`, identifying the underlying handle) and the generation it
  currently reflects (`gen`); `Index.searcher` yields a fresh handle at the
  index's current generation, and `Searcher.refresh` moves `gen` to the
  index's current generation while keeping the handle identity.
* The pool (`Queue.LifoQueue(search_max)` filled with `{'searcher': None}`
  wrappers) is a list of `Option Searcher`, head = top of the LIFO stack.
  A blocking `get`/`put` (empty/full queue) is modelled as `none`.
* Flask's `_app_ctx_stack.top` is an `Option AppCtx`; `current_app`'s
  lazily attached `whoosh` manager is an `Option WhooshManager` field of
  the ambient `FlaskState`.  `current_app` is an unbound proxy exactly when
  that stack is empty, and resolving it then raises `RuntimeError`; the
  property accessors model this via the `PyOutcome.raised` outcome.
  Python object identity of `AsyncWriter` instances is modelled with a
  fresh-id supply (`nextId`).
-/

/-- The committed state of a Whoosh index, abstracted to the generation
counter of its latest committed snapshot. -/
structure Index where
  gen : Nat
  deriving DecidableEq, Repr

/-- A Whoosh searcher: `bornGen` identifies the underlying handle
(the generation at which `index.searcher()` created it), `gen` is the
snapshot it currently reflects. -/
structure Searcher where
  bornGen : Nat
  gen : Nat
  deriving DecidableEq, Repr

/-- Model of `self.index.searcher()`: a fresh searcher over the current snapshot. -/
def Index.searcher (idx : Index) : Searcher :=
  { bornGen := idx.gen, gen := idx.gen }

/-- Model of `searcher.refresh()`: same underlying handle, latest committed snapshot. -/
def Searcher.refresh (s : Searcher) (idx : Index) : Searcher :=
  { bornGen := s.bornGen, gen := idx.gen }

/-- The state of a `WhooshManager`: the configured `search_max`, the shared
index, and the searcher pool (a bounded LIFO queue of wrappers holding an
optional searcher; list head = top of stack). -/
structure WhooshManager where
  search_max : Nat
  index : Index
  search_pool : List (Option Searcher)
  deriving DecidableEq, Repr

/-- Model of the pool initializer: a `LifoQueue(search_max)`
filled with `search_max` wrappers `{'searcher': None}`. -/
def WhooshManager.init_searcher_pool (search_max : Nat) :
    List (Option Searcher) :=
  List.replicate search_max none

/-- Model of `WhooshManager.__init__(search_max, index)`. -/
def WhooshManager.create (search_max : Nat) (index : Index) : WhooshManager :=
  { search_max := search_max
    index := index
    search_pool := WhooshManager.init_searcher_pool search_max }

/-- Model of `WhooshManager.get_searcher`: pop the top wrapper off the LIFO pool
(blocking — `none` — when the pool is empty), materialize the searcher if
the wrapper holds none, refresh it, and return it together with the
manager state after the pop. -/
def WhooshManager.get_searcher (m : WhooshManager) :
    Option (Searcher × WhooshManager) :=
  match m.search_pool with
  | [] => none
  | wrapper :: rest =>
      let s0 : Searcher :=
        match wrapper with
        | none => m.index.searcher
        | some s => s
      let s1 := s0.refresh m.index
      some (s1, { m with search_pool := rest })

/-- Model of `WhooshManager.put_searcher`: push a fresh wrapper around the searcher
onto the LIFO pool.  `LifoQueue.put` blocks when the queue is full
(`qsize == maxsize`); that blocking branch is modelled as `none`. -/
def WhooshManager.put_searcher (m : WhooshManager) (s : Searcher) :
    Option WhooshManager :=
  if m.search_pool.length < m.search_max then
    some { m with search_pool := some s :: m.search_pool }
  else
    none

/-- Model of `WhooshManager.writer`: `AsyncWriter(self.index)` — a fresh writer
handle over the shared index; `fresh` is the identity of the new Python
object. -/
structure AsyncWriter where
  id : Nat
  index : Index
  committed : Bool
  cancelled : Bool
  deriving DecidableEq, Repr

def WhooshManager.writer (m : WhooshManager) (fresh : Nat) : AsyncWriter :=
  { id := fresh, index := m.index, committed := false, cancelled := false }

/-! ## Pool interleaving traces (claims C1, C7)

A trace is a sequence of completed `get_searcher` / `put_searcher` calls.
A `get` completes only when the pool is non-empty (otherwise the caller
blocks); a `put` in the traces considered must match a prior `get`, so it
returns one of the currently checked-out searchers (the model returns the
head of the checked-out list; only the count matters). -/

inductive PoolOp where
  | get
  | put
  deriving DecidableEq, Repr

/-- Run a sequence of pool operations against manager state `m` with
checked-out searchers `out`.  `none` means the run is not a valid
interleaving of completed calls: a `get` found the pool empty (the caller
would block), a `put` had no matching prior `get`, or a `put` found the
queue full (the blocking branch of `LifoQueue.put`). -/
def runTrace (m : WhooshManager) (out : List Searcher) :
    List PoolOp → Option (WhooshManager × List Searcher)
  | [] => some (m, out)
  | PoolOp.get :: rest =>
      match m.get_searcher with
      | none => none
      | some (s, m2) => runTrace m2 (s :: out) rest
  | PoolOp.put :: rest =>
      match out with
      | [] => none
      | s :: outRest =>
          match m.put_searcher s with
          | none => none
          | some m2 => runTrace m2 outRest rest

/-! ## The Flask-facing `Whoosh` extension object -/

/-- Flask's per-request/application context object (`stack.top`), carrying
the lazily attached `whoosh_searcher` / `whoosh_writer` attributes. -/
structure AppCtx where
  whoosh_searcher : Option Searcher
  whoosh_writer : Option AsyncWriter
  deriving DecidableEq, Repr

/-- The ambient state seen by the `Whoosh` extension: the configured
`WHOOSH_SEARCHER_MAX`, the opened index (`Whoosh._open_index()`), the
lazily attached `current_app.whoosh` manager, the context stack top, and a
fresh-id supply modelling Python object identity for `AsyncWriter`. -/
structure FlaskState where
  searcher_max : Nat
  index0 : Index
  whoosh : Option WhooshManager
  ctxTop : Option AppCtx
  nextId : Nat
  deriving DecidableEq, Repr

/-- The possible outcomes of accessing a request-scoped property:
`raised` is the `RuntimeError` Flask raises when the unbound `current_app`
proxy is resolved outside any application context (it carries the state,
which is untouched — the error fires before any mutation); `blocked` is a
caller suspended inside `LifoQueue.get`; `returns` is a normal return of a
value together with the state after the access. -/
inductive PyOutcome (α : Type) where
  | raised (st : FlaskState)
  | blocked
  | returns (v : α) (st : FlaskState)
  deriving DecidableEq, Repr

/-- Model of the extension setup step: it evaluates
`hasattr(current_app, ...)` and `current_app.config[...]`, and
`current_app` is an unbound proxy exactly when the context stack's top is
`None` (both are views of the same thread-local stack), so resolving it
then raises `RuntimeError` — Python 3's `hasattr` swallows only
`AttributeError`, and under Python 2 the swallowed check is immediately
followed by a `current_app.config` read that raises the same error; that
path is the `none` result, with no state change.  With a context, if
`current_app` has no `whoosh` attribute yet, a fresh
`WhooshManager(searcher_max, open_index())` is attached; the result is the
manager now attached together with the (possibly updated) state. -/
def Whoosh.setup_whoosh (st : FlaskState) :
    Option (WhooshManager × FlaskState) :=
  match st.ctxTop with
  | none => none
  | some _ =>
      match st.whoosh with
      | some m => some (m, st)
      | none =>
          let m := WhooshManager.create st.searcher_max st.index0
          some (m, { st with whoosh := some m })

/-- The `Whoosh.searcher` property: `self._setup_whoosh()` first (whose
`RuntimeError` propagates), then `ctx = stack.top; if ctx is not None:`
with the per-request memoization, popping from the pool on first access
(blocking when the pool is empty). -/
def Whoosh.searcher (st : FlaskState) : PyOutcome (Option Searcher) :=
  match Whoosh.setup_whoosh st with
  | none => PyOutcome.raised st
  | some p =>
      match p.2.ctxTop with
      | none => PyOutcome.returns none p.2
      | some ctx =>
          match ctx.whoosh_searcher with
          | some s => PyOutcome.returns (some s) p.2
          | none =>
              match p.1.get_searcher with
              | none => PyOutcome.blocked
              | some (s, m2) =>
                  PyOutcome.returns (some s)
                    { p.2 with
                        whoosh := some m2
                        ctxTop := some { ctx with whoosh_searcher := some s } }

/-- The `Whoosh.writer` property: `self._setup_whoosh()` first (whose
`RuntimeError` propagates), then the `stack.top` check; builds
`AsyncWriter(index)` on first access in a request and caches it on the
context. -/
def Whoosh.writer (st : FlaskState) : PyOutcome (Option AsyncWriter) :=
  match Whoosh.setup_whoosh st with
  | none => PyOutcome.raised st
  | some p =>
      match p.2.ctxTop with
      | none => PyOutcome.returns none p.2
      | some ctx =>
          match ctx.whoosh_writer with
          | some w => PyOutcome.returns (some w) p.2
          | none =>
              let w := p.1.writer p.2.nextId
              PyOutcome.returns (some w)
                { p.2 with
                    nextId := p.2.nextId + 1
                    ctxTop := some { ctx with whoosh_writer := some w } }

/-- Model of `Whoosh.teardown`: if the context carries a `whoosh_searcher`
attribute, return it to the pool via `put_searcher`.  `hasattr(None, ...)`
is `False`, so a missing context is a no-op.  The outer `none` marks the
paths where the Python code would not return normally: `current_app` has no
`whoosh` attribute (`AttributeError`), or `LifoQueue.put` blocks. -/
def Whoosh.teardown (st : FlaskState) : Option FlaskState :=
  match st.ctxTop with
  | none => some st
  | some ctx =>
      match ctx.whoosh_searcher with
      | none => some st
      | some s =>
          match st.whoosh with
          | none => none
          | some m =>
              match m.put_searcher s with
              | none => none
              | some m2 => some { st with whoosh := some m2 }

/-! ## Configuration (`Whoosh.init_app`) -/

/-- The Whoosh-related keys of `app.config`; `none` = key not set. -/
structure FlaskConfig where
  whoosh_index_root : Option (List Char)
  whoosh_index_name : Option (List Char)
  whoosh_searcher_max : Option Nat
  whoosh_searcher_min : Option Nat
  deriving DecidableEq, Repr

/-- A fresh application's config, before `init_app` runs. -/
def FlaskConfig.fresh : FlaskConfig :=
  { whoosh_index_root := none
    whoosh_index_name := none
    whoosh_searcher_max := none
    whoosh_searcher_min := none }

/-- Model of `Whoosh.init_app`: `app.config.setdefault` for
`WHOOSH_INDEX_ROOT`
(`'/tmp'`), `WHOOSH_INDEX_NAME` (`''`) and `WHOOSH_SEARCHER_MAX` (`10`);
no other key is touched.  (The teardown-hook registration is not part of
the config state.) -/
def Whoosh.init_app (c : FlaskConfig) : FlaskConfig :=
  { c with
      whoosh_index_root :=
        some (c.whoosh_index_root.getD [Char.ofNat 47, 't', 'm', 'p'])
      whoosh_index_name := some (c.whoosh_index_name.getD [])
      whoosh_searcher_max := some (c.whoosh_searcher_max.getD 10) }

/-! ## `WhooshManager.init_index` directory-state logic -/

/-- The `DirectoryAlreadyExists` exception, carrying the offending folder. -/
structure DirectoryAlreadyExists where
  folder : List Char
  deriving DecidableEq, Repr

/-- The filesystem facts about the configured `index_root` (and index
`name`) that `init_index` consults: `os.path.exists`, `os.path.isdir`,
`whoosh.index.exists_in(index_root, indexname=name)`, and whether
`os.listdir(index_root)` is non-empty. -/
structure FileSys where
  pathExists : Bool
  isDir : Bool
  hasIndex : Bool
  nonEmpty : Bool
  deriving DecidableEq, Repr

/-- Model of `WhooshManager.init_index`: the three ordered precondition
checks, each
raising `DirectoryAlreadyExists(index_root)` (the `Option` component),
then `os.makedirs` if the root is absent and `create_in` with the schema.
The second component is the filesystem state after the call. -/
def WhooshManager.init_index (index_root : List Char) (fs : FileSys)
    (clear : Bool) : Option DirectoryAlreadyExists × FileSys :=
  if fs.pathExists && !fs.isDir then
    (some ⟨index_root⟩, fs)
  else if fs.isDir && !fs.hasIndex && fs.nonEmpty then
    (some ⟨index_root⟩, fs)
  else if fs.isDir && fs.hasIndex && !clear then
    (some ⟨index_root⟩, fs)
  else
    let fs1 :=
      if !fs.pathExists then
        { fs with pathExists := true, isDir := true, nonEmpty := false }
      else fs
    (none, { fs1 with hasIndex := true, nonEmpty := true })

/-! ## Python `repr` of a string (`DirectoryAlreadyExists.__str__`)

`__str__` returns `repr(self.folder)`.  CPython's `repr` of a `str` picks a
single quote unless the string contains `'` but no `"`, and escapes the
backslash, the chosen quote, `\n`, `\r`, `\t` and other non-printable
characters.  The model below is faithful for ASCII strings (characters
≥ 128 are kept literal, as `repr` does for printable text). -/

def hexDigit (n : Nat) : Char :=
  if n < 10 then Char.ofNat (48 + n) else Char.ofNat (87 + n)

def pythonEscapeChar (q : Char) (c : Char) : List Char :=
  if c = Char.ofNat 92 then [Char.ofNat 92, Char.ofNat 92]
  else if c = q then [Char.ofNat 92, q]
  else if c = Char.ofNat 10 then [Char.ofNat 92, 'n']
  else if c = Char.ofNat 13 then [Char.ofNat 92, 'r']
  else if c = Char.ofNat 9 then [Char.ofNat 92, 't']
  else if c.toNat < 32 ∨ c.toNat = 127 then
    [Char.ofNat 92, 'x', hexDigit (c.toNat / 16), hexDigit (c.toNat % 16)]
  else [c]

def pythonReprQuote (s : List Char) : Char :=
  if Char.ofNat 39 ∈ s ∧ Char.ofNat 34 ∉ s then Char.ofNat 34
  else Char.ofNat 39

def pythonRepr (s : List Char) : List Char :=
  let q := pythonReprQuote s
  q :: s.flatMap (pythonEscapeChar q) ++ [q]

/-- Model of the `DirectoryAlreadyExists` string representation:
`repr(self.folder)`. -/
def DirectoryAlreadyExists.toStr (e : DirectoryAlreadyExists) : List Char :=
  pythonRepr e.folder

/-- Each completed operation preserves `slots_in_pool + slots_checked_out`
and the capacity field. -/
theorem runTrace_preserves (ops : List PoolOp) :
    ∀ m out m2 out2, runTrace m out ops = some (m2, out2) →
      m2.search_pool.length + out2.length
        = m.search_pool.length + out.length
      ∧ m2.search_max = m.search_max ∧ m2.index = m.index := by
  induction ops with
  | nil =>
      intro m out m2 out2 h
      simp only [runTrace, Option.some.injEq, Prod.mk.injEq] at h
      rw [← h.1, ← h.2]
      exact ⟨rfl, rfl, rfl⟩
  | cons op rest ih =>
      intro m out m2 out2 h
      cases op with
      | get =>
          cases hp : m.search_pool with
          | nil =>
              simp [runTrace, WhooshManager.get_searcher, hp] at h
          | cons w ws =>
              simp only [runTrace, WhooshManager.get_searcher, hp] at h
              have hrec := ih _ _ _ _ h
              simp only [List.length_cons] at hrec
              simp only [List.length_cons]
              refine ⟨by omega, hrec.2.1, hrec.2.2⟩
      | put =>
          cases out with
          | nil => simp [runTrace] at h
          | cons s outRest =>
              simp only [runTrace] at h
              cases hput : m.put_searcher s with
              | none => rw [hput] at h; cases h
              | some m1 =>
                  rw [hput] at h
                  have hrec := ih _ _ _ _ h
                  unfold WhooshManager.put_searcher at hput
                  by_cases hlt : m.search_pool.length < m.search_max
                  · rw [if_pos hlt] at hput
                    injection hput with hm1
                    rw [← hm1] at hrec
                    simp only [List.length_cons] at hrec ⊢
                    exact ⟨by omega, hrec.2.1, hrec.2.2⟩
                  · rw [if_neg hlt] at hput; cases hput

/-- C1: for every pool created with capacity `M` and every interleaving of
completed `get_searcher`/`put_searcher` calls in which each put matches a
prior get, `slots_in_pool + slots_checked_out = M`, and the capacity field
still equals `M`.  Every instant of a run is the final state of a prefix of
the interleaving, and the theorem quantifies over all interleavings, so it
holds at every instant. -/
theorem pool_capacity_invariant (M : Nat) (idx : Index) (ops : List PoolOp)
    (m : WhooshManager) (out : List Searcher)
    (h : runTrace (WhooshManager.create M idx) [] ops = some (m, out)) :
    m.search_pool.length + out.length = M ∧ m.search_max = M := by
  have hpres := runTrace_preserves ops _ _ _ _ h
  refine ⟨?_, hpres.2.1⟩
  have h1 := hpres.1
  simpa [WhooshManager.create, WhooshManager.init_searcher_pool]
    using h1

/-- Witness for C1: the trace get-then-put on a pool of capacity 2. -/
theorem pool_capacity_invariant_witness :
    (WhooshManager.mk 2 ⟨0⟩ [some ⟨0, 0⟩, none]).search_pool.length
        + ([] : List Searcher).length = 2
      ∧ (WhooshManager.mk 2 ⟨0⟩ [some ⟨0, 0⟩, none]).search_max = 2 :=
  pool_capacity_invariant 2 ⟨0⟩ [PoolOp.get, PoolOp.put] _ _ (by decide)

/-- C7: under the precondition that each `put_searcher` matches a prior
`get_searcher` (the searcher returned is one currently checked out), the
pool is never full when `put_searcher` executes, so the blocking branch of
`LifoQueue.put` is unreachable: `put_searcher` on any reachable state with
a checked-out searcher succeeds. -/
theorem put_searcher_never_blocks (M : Nat) (idx : Index) (ops : List PoolOp)
    (m : WhooshManager) (s : Searcher) (out : List Searcher)
    (h : runTrace (WhooshManager.create M idx) [] ops = some (m, s :: out)) :
    (m.put_searcher s).isSome := by
  have hpres := runTrace_preserves ops _ _ _ _ h
  have hmax : m.search_max = M := hpres.2.1
  have hlen : m.search_pool.length + (out.length + 1) = M := by
    have h1 := hpres.1
    simpa [WhooshManager.create, WhooshManager.init_searcher_pool]
      using h1
  unfold WhooshManager.put_searcher
  rw [if_pos (by omega)]
  rfl

/-- Witness for C7: after one `get` on a capacity-1 pool, `put` succeeds. -/
theorem put_searcher_never_blocks_witness :
    ((WhooshManager.mk 1 ⟨0⟩ []).put_searcher ⟨0, 0⟩).isSome :=
  put_searcher_never_blocks 1 ⟨0⟩ [PoolOp.get]
    (WhooshManager.mk 1 ⟨0⟩ []) ⟨0, 0⟩ [] (by decide)

/-- C3: `get_searcher` pops the most recently released slot (releasing a
searcher and acquiring again yields the same underlying handle, refreshed,
and restores the previous pool); a popped empty wrapper is materialized
via `index.searcher()`; and in every case the returned searcher reflects
the index's latest committed snapshot. -/
theorem get_searcher_lifo_materialize_refresh :
    (∀ (m m1 : WhooshManager) (s : Searcher), m.put_searcher s = some m1 →
        m1.get_searcher =
          some (s.refresh m1.index, { m1 with search_pool := m.search_pool })) ∧
    (∀ (m : WhooshManager) (rest : List (Option Searcher)),
        m.search_pool = none :: rest →
        m.get_searcher =
          some (m.index.searcher.refresh m.index,
            { m with search_pool := rest })) ∧
    (∀ (m m2 : WhooshManager) (s : Searcher),
        m.get_searcher = some (s, m2) → s.gen = m.index.gen) := by
  refine ⟨?_, ?_, ?_⟩
  · intro m m1 s hput
    unfold WhooshManager.put_searcher at hput
    by_cases hlt : m.search_pool.length < m.search_max
    · rw [if_pos hlt] at hput
      injection hput with hm1
      subst hm1
      rfl
    · rw [if_neg hlt] at hput; cases hput
  · intro m rest hpool
    unfold WhooshManager.get_searcher
    rw [hpool]
  · intro m m2 s hget
    unfold WhooshManager.get_searcher at hget
    cases hpool : m.search_pool with
    | nil => rw [hpool] at hget; cases hget
    | cons w ws =>
        rw [hpool] at hget
        simp only [Option.some.injEq, Prod.mk.injEq] at hget
        rw [← hget.1]
        rfl

/-- Witness for C3: releasing searcher `⟨3, 3⟩` into an empty capacity-2
pool over an index at generation 7 and acquiring again returns the same
handle refreshed to generation 7 and restores the empty pool. -/
theorem get_searcher_lifo_witness :
    (WhooshManager.mk 2 ⟨7⟩ [some ⟨3, 3⟩]).get_searcher
      = some (⟨3, 7⟩, WhooshManager.mk 2 ⟨7⟩ []) :=
  get_searcher_lifo_materialize_refresh.1 (WhooshManager.mk 2 ⟨7⟩ [])
    (WhooshManager.mk 2 ⟨7⟩ [some ⟨3, 3⟩]) ⟨3, 3⟩ (by decide)

/-- C6 (divergence witness): `init_app` leaves `WHOOSH_SEARCHER_MIN` unset
on a fresh config (the repository's own test expects it to default to 1),
and pool construction takes no minimum: all `search_max` wrappers are
seeded unrealized (`{'searcher': None}`), none pre-seeded with a
materialized read-view. -/
theorem init_app_no_searcher_min (M : Nat) (idx : Index) :
    (Whoosh.init_app FlaskConfig.fresh).whoosh_searcher_min = none ∧
    (∀ c : FlaskConfig,
        (Whoosh.init_app c).whoosh_searcher_min = c.whoosh_searcher_min) ∧
    (WhooshManager.create M idx).search_pool = List.replicate M none :=
  ⟨rfl, fun _ => rfl, rfl⟩

/-- Helper: a `flatMap` whose function is the singleton on every element of
the list is the identity. -/
theorem flatMap_id_of_single {α : Type} (f : α → List α) :
    ∀ s : List α, (∀ c ∈ s, f c = [c]) → s.flatMap f = s := by
  intro s
  induction s with
  | nil => intro _; rfl
  | cons c cs ih =>
      intro h
      have hc := h c (by simp)
      have hcs : ∀ x ∈ cs, f x = [x] := fun x hx => h x (by simp [hx])
      simp [List.flatMap_cons, hc, ih hcs]

/-- C9 counterexample: for the Windows-style folder `C:\tmp`, the string
representation `repr('C:\tmp')` is `'C:\\tmp'`, whose character sequence
does not contain the folder path (the backslash is doubled). -/
theorem dir_exists_str_counterexample :
    ¬ (['C', ':', Char.ofNat 92, 't', 'm', 'p'] <:+:
        (DirectoryAlreadyExists.mk
          ['C', ':', Char.ofNat 92, 't', 'm', 'p']).toStr) := by
  decide

/-- C9 (amended): the string representation of
`DirectoryAlreadyExists(folder)` is Python's `repr` of the folder — the
path wrapped in quotes with special characters escaped — and it contains
the offending path verbatim whenever the path consists of printable ASCII
characters, has no backslash, and does not mix both quote characters. -/
theorem dir_exists_str_contains_path (folder : List Char)
    (hascii : ∀ c ∈ folder, 32 ≤ c.toNat ∧ c.toNat ≤ 126)
    (hnobs : Char.ofNat 92 ∉ folder)
    (hquotes : ¬ (Char.ofNat 39 ∈ folder ∧ Char.ofNat 34 ∈ folder)) :
    (DirectoryAlreadyExists.mk folder).toStr = pythonRepr folder ∧
    folder <:+: (DirectoryAlreadyExists.mk folder).toStr := by
  refine ⟨rfl, ?_⟩
  have hq : ∀ c ∈ folder, c ≠ pythonReprQuote folder := by
    intro c hc
    unfold pythonReprQuote
    by_cases h39 : Char.ofNat 39 ∈ folder
    · by_cases h34 : Char.ofNat 34 ∈ folder
      · exact absurd ⟨h39, h34⟩ hquotes
      · rw [if_pos ⟨h39, h34⟩]
        intro he
        exact h34 (he ▸ hc)
    · rw [if_neg (by intro hand; exact h39 hand.1)]
      intro he
      exact h39 (he ▸ hc)
  have hesc : ∀ c ∈ folder,
      pythonEscapeChar (pythonReprQuote folder) c = [c] := by
    intro c hc
    have h1 := hascii c hc
    have h92 : ¬ (c = Char.ofNat 92) := fun he => hnobs (he ▸ hc)
    have h10 : ¬ (c = Char.ofNat 10) := by
      intro he; rw [he] at h1; revert h1; decide
    have h13 : ¬ (c = Char.ofNat 13) := by
      intro he; rw [he] at h1; revert h1; decide
    have h9 : ¬ (c = Char.ofNat 9) := by
      intro he; rw [he] at h1; revert h1; decide
    unfold pythonEscapeChar
    rw [if_neg h92, if_neg (hq c hc), if_neg h10, if_neg h13, if_neg h9,
      if_neg (by omega)]
  have hmap :
      folder.flatMap (pythonEscapeChar (pythonReprQuote folder)) = folder :=
    flatMap_id_of_single _ folder hesc
  show folder <:+:
    pythonReprQuote folder ::
      folder.flatMap (pythonEscapeChar (pythonReprQuote folder))
        ++ [pythonReprQuote folder]
  rw [hmap]
  exact ⟨[pythonReprQuote folder], [pythonReprQuote folder], by simp⟩

/-- Witness for C9 (amended): the folder `/tmp` is contained in the string
representation `'/tmp'`. -/
theorem dir_exists_str_contains_path_witness :
    (DirectoryAlreadyExists.mk [Char.ofNat 47, 't', 'm', 'p']).toStr
        = pythonRepr [Char.ofNat 47, 't', 'm', 'p'] ∧
      [Char.ofNat 47, 't', 'm', 'p'] <:+:
        (DirectoryAlreadyExists.mk [Char.ofNat 47, 't', 'm', 'p']).toStr :=
  dir_exists_str_contains_path [Char.ofNat 47, 't', 'm', 'p']
    (by decide) (by decide) (by decide)

/-- C2: `init_index` raises `DirectoryAlreadyExists` if and only if one of
the three ordered conditions holds — the root exists and is not a
directory; the root is a non-empty directory without a valid index under
the name; the root holds a valid index and `clear` is false — the error
always carries the root path, a failing call leaves the filesystem
unchanged, and a successful call leaves the root existing as a directory
containing a valid index.  The hypothesis records that `exists_in` reports
an index only inside an existing directory. -/
theorem init_index_spec (root : List Char) (fs : FileSys) (clear : Bool)
    (hsane : fs.hasIndex = true → fs.isDir = true) :
    ((WhooshManager.init_index root fs clear).1.isSome ↔
        ((fs.pathExists = true ∧ fs.isDir = false) ∨
         (fs.isDir = true ∧ fs.nonEmpty = true ∧ fs.hasIndex = false) ∨
         (fs.hasIndex = true ∧ clear = false))) ∧
    (∀ e, (WhooshManager.init_index root fs clear).1 = some e →
        e.folder = root) ∧
    ((WhooshManager.init_index root fs clear).1.isSome →
        (WhooshManager.init_index root fs clear).2 = fs) ∧
    ((WhooshManager.init_index root fs clear).1 = none →
        (WhooshManager.init_index root fs clear).2.pathExists = true ∧
        (WhooshManager.init_index root fs clear).2.isDir = true ∧
        (WhooshManager.init_index root fs clear).2.hasIndex = true) := by
  obtain ⟨pe, di, hi, ne⟩ := fs
  cases pe <;> cases di <;> cases hi <;> cases ne <;> cases clear <;>
    simp_all [WhooshManager.init_index]

/-- Witness for C2: a file standing at the index root fails the call. -/
theorem init_index_spec_witness :
    (WhooshManager.init_index [Char.ofNat 47, 'a']
          (FileSys.mk true false false false) false).1.isSome ↔
      ((true = true ∧ false = false) ∨
       (false = true ∧ false = true ∧ false = false) ∨
       (false = true ∧ false = false)) :=
  (init_index_spec [Char.ofNat 47, 'a']
    (FileSys.mk true false false false) false (by decide)).1

/-- Helper: `_setup_whoosh` raises when the context stack is empty (the
unbound `current_app` proxy). -/
theorem setup_whoosh_raises (st : FlaskState) (hc : st.ctxTop = none) :
    Whoosh.setup_whoosh st = none := by
  simp [Whoosh.setup_whoosh, hc]

/-- Helper: `_setup_whoosh` under a context, manager already attached. -/
theorem setup_whoosh_some (st : FlaskState) (ctx : AppCtx)
    (m : WhooshManager) (hc : st.ctxTop = some ctx)
    (hm : st.whoosh = some m) : Whoosh.setup_whoosh st = some (m, st) := by
  simp [Whoosh.setup_whoosh, hc, hm]

/-- Helper: `_setup_whoosh` under a context, attaching a fresh manager. -/
theorem setup_whoosh_fresh (st : FlaskState) (ctx : AppCtx)
    (hc : st.ctxTop = some ctx) (hm : st.whoosh = none) :
    Whoosh.setup_whoosh st =
      some (WhooshManager.create st.searcher_max st.index0,
        { st with
            whoosh :=
              some (WhooshManager.create st.searcher_max st.index0) }) := by
  simp [Whoosh.setup_whoosh, hc, hm]

/-- Helper: a successful `_setup_whoosh` attaches the returned manager and
changes nothing else. -/
theorem setup_whoosh_post (st st' : FlaskState) (m : WhooshManager)
    (h : Whoosh.setup_whoosh st = some (m, st')) :
    st'.whoosh = some m ∧ st'.ctxTop = st.ctxTop ∧ st'.nextId = st.nextId ∧
    st'.searcher_max = st.searcher_max ∧ st'.index0 = st.index0 := by
  rcases hc : st.ctxTop with _ | ctx
  · rw [setup_whoosh_raises st hc] at h; cases h
  · rcases hm : st.whoosh with _ | m0
    · rw [setup_whoosh_fresh st ctx hc hm] at h
      simp only [Option.some.injEq, Prod.mk.injEq] at h
      obtain ⟨hm', hst'⟩ := h
      subst hst'
      subst hm'
      exact ⟨rfl, hc, rfl, rfl, rfl⟩
    · rw [setup_whoosh_some st ctx m0 hc hm] at h
      simp only [Option.some.injEq, Prod.mk.injEq] at h
      obtain ⟨hm', hst'⟩ := h
      subst hst'
      subst hm'
      exact ⟨hm, hc, rfl, rfl, rfl⟩

/-- Helper: the `searcher` property raises with no context. -/
theorem searcher_raised (st : FlaskState) (hc : st.ctxTop = none) :
    Whoosh.searcher st = PyOutcome.raised st := by
  simp [Whoosh.searcher, setup_whoosh_raises st hc]

/-- Helper: the `searcher` property when the context already caches one. -/
theorem searcher_of_cached (st : FlaskState) (m : WhooshManager)
    (ctx : AppCtx) (s : Searcher) (hm : st.whoosh = some m)
    (hc : st.ctxTop = some ctx) (hs : ctx.whoosh_searcher = some s) :
    Whoosh.searcher st = PyOutcome.returns (some s) st := by
  simp [Whoosh.searcher, setup_whoosh_some st ctx m hc hm, hc, hs]

/-- Helper: the `searcher` property on a first access in a request, when
the manager is already attached and the pool yields a searcher. -/
theorem searcher_of_fresh (st : FlaskState) (m : WhooshManager)
    (ctx : AppCtx) (s : Searcher) (m2 : WhooshManager)
    (hm : st.whoosh = some m) (hc : st.ctxTop = some ctx)
    (hs : ctx.whoosh_searcher = none) (hg : m.get_searcher = some (s, m2)) :
    Whoosh.searcher st =
      PyOutcome.returns (some s)
        { st with
            whoosh := some m2
            ctxTop := some { ctx with whoosh_searcher := some s } } := by
  simp [Whoosh.searcher, setup_whoosh_some st ctx m hc hm, hc, hs, hg]

/-- Helper: the `searcher` property blocks when the pool is empty on a
first access. -/
theorem searcher_of_fresh_blocked (st : FlaskState) (m : WhooshManager)
    (ctx : AppCtx) (hm : st.whoosh = some m) (hc : st.ctxTop = some ctx)
    (hs : ctx.whoosh_searcher = none) (hg : m.get_searcher = none) :
    Whoosh.searcher st = PyOutcome.blocked := by
  simp [Whoosh.searcher, setup_whoosh_some st ctx m hc hm, hc, hs, hg]

/-- Helper: after a successful `_setup_whoosh`, accessing the `searcher`
property is the same as accessing it on the state it left. -/
theorem searcher_eq (st st' : FlaskState) (m : WhooshManager)
    (h : Whoosh.setup_whoosh st = some (m, st')) :
    Whoosh.searcher st = Whoosh.searcher st' := by
  have hpost := setup_whoosh_post st st' m h
  rcases hc : st.ctxTop with _ | ctx
  · rw [setup_whoosh_raises st hc] at h; cases h
  · have hc' : st'.ctxTop = some ctx := by rw [hpost.2.1, hc]
    have hsetup' := setup_whoosh_some st' ctx m hc' hpost.1
    unfold Whoosh.searcher
    rw [h, hsetup']

/-- Helper: a value-returning `searcher` access on a manager-carrying
state under a context leaves the returned searcher cached. -/
theorem searcher_succ_state_aux (st st1 : FlaskState) (m : WhooshManager)
    (ctx : AppCtx) (s : Searcher) (hm : st.whoosh = some m)
    (hc : st.ctxTop = some ctx)
    (h : Whoosh.searcher st = PyOutcome.returns (some s) st1) :
    ∃ m1 ctx1, st1.whoosh = some m1 ∧ st1.ctxTop = some ctx1 ∧
      ctx1.whoosh_searcher = some s := by
  rcases hcs : ctx.whoosh_searcher with _ | s0
  · rcases hg : m.get_searcher with _ | pr
    · rw [searcher_of_fresh_blocked st m ctx hm hc hcs hg] at h
      cases h
    · obtain ⟨s', m2⟩ := pr
      rw [searcher_of_fresh st m ctx s' m2 hm hc hcs hg] at h
      simp only [PyOutcome.returns.injEq, Option.some.injEq] at h
      refine ⟨m2, { ctx with whoosh_searcher := some s' }, ?_, ?_, ?_⟩
      · rw [← h.2]
      · rw [← h.2]
      · simp [h.1]
  · rw [searcher_of_cached st m ctx s0 hm hc hcs] at h
    simp only [PyOutcome.returns.injEq, Option.some.injEq] at h
    refine ⟨m, ctx, ?_, ?_, ?_⟩
    · rw [← h.2]; exact hm
    · rw [← h.2]; exact hc
    · rw [hcs, h.1]

/-- Helper: a value-returning `searcher` access leaves a state whose
context caches the returned searcher and which carries a manager. -/
theorem searcher_succ_state (st st1 : FlaskState) (s : Searcher)
    (h : Whoosh.searcher st = PyOutcome.returns (some s) st1) :
    ∃ m1 ctx1, st1.whoosh = some m1 ∧ st1.ctxTop = some ctx1 ∧
      ctx1.whoosh_searcher = some s := by
  rcases hc : st.ctxTop with _ | ctx
  · rw [searcher_raised st hc] at h; cases h
  · rcases hm : st.whoosh with _ | m
    · have hsetup := setup_whoosh_fresh st ctx hc hm
      rw [searcher_eq st _ _ hsetup] at h
      exact searcher_succ_state_aux
        { st with
            whoosh := some (WhooshManager.create st.searcher_max st.index0) }
        st1 (WhooshManager.create st.searcher_max st.index0) ctx s rfl hc h
    · exact searcher_succ_state_aux st st1 m ctx s hm hc h

/-- Helper: the `writer` property raises with no context. -/
theorem writer_raised (st : FlaskState) (hc : st.ctxTop = none) :
    Whoosh.writer st = PyOutcome.raised st := by
  simp [Whoosh.writer, setup_whoosh_raises st hc]

/-- Helper: the `writer` property when the context already caches one. -/
theorem writer_of_cached (st : FlaskState) (m : WhooshManager)
    (ctx : AppCtx) (w : AsyncWriter) (hm : st.whoosh = some m)
    (hc : st.ctxTop = some ctx) (hw : ctx.whoosh_writer = some w) :
    Whoosh.writer st = PyOutcome.returns (some w) st := by
  simp [Whoosh.writer, setup_whoosh_some st ctx m hc hm, hc, hw]

/-- Helper: the `writer` property on a first access in a request. -/
theorem writer_of_fresh (st : FlaskState) (m : WhooshManager)
    (ctx : AppCtx) (hm : st.whoosh = some m) (hc : st.ctxTop = some ctx)
    (hw : ctx.whoosh_writer = none) :
    Whoosh.writer st =
      PyOutcome.returns (some (m.writer st.nextId))
        { st with
            nextId := st.nextId + 1
            ctxTop := some
              { ctx with whoosh_writer := some (m.writer st.nextId) } } := by
  simp [Whoosh.writer, setup_whoosh_some st ctx m hc hm, hc, hw]

/-- Helper: after a successful `_setup_whoosh`, accessing the `writer`
property is the same as accessing it on the state it left. -/
theorem writer_eq (st st' : FlaskState) (m : WhooshManager)
    (h : Whoosh.setup_whoosh st = some (m, st')) :
    Whoosh.writer st = Whoosh.writer st' := by
  have hpost := setup_whoosh_post st st' m h
  rcases hc : st.ctxTop with _ | ctx
  · rw [setup_whoosh_raises st hc] at h; cases h
  · have hc' : st'.ctxTop = some ctx := by rw [hpost.2.1, hc]
    have hsetup' := setup_whoosh_some st' ctx m hc' hpost.1
    unfold Whoosh.writer
    rw [h, hsetup']

/-- Helper: a value-returning `writer` access on a manager-carrying state
under a context leaves the returned writer cached. -/
theorem writer_succ_state_aux (st st1 : FlaskState) (m : WhooshManager)
    (ctx : AppCtx) (w : AsyncWriter) (hm : st.whoosh = some m)
    (hc : st.ctxTop = some ctx)
    (h : Whoosh.writer st = PyOutcome.returns (some w) st1) :
    ∃ m1 ctx1, st1.whoosh = some m1 ∧ st1.ctxTop = some ctx1 ∧
      ctx1.whoosh_writer = some w := by
  rcases hcw : ctx.whoosh_writer with _ | w0
  · rw [writer_of_fresh st m ctx hm hc hcw] at h
    simp only [PyOutcome.returns.injEq, Option.some.injEq] at h
    obtain ⟨hw1, hst1⟩ := h
    subst hst1
    exact ⟨m, _, hm, rfl, by simp [hw1]⟩
  · rw [writer_of_cached st m ctx w0 hm hc hcw] at h
    simp only [PyOutcome.returns.injEq, Option.some.injEq] at h
    refine ⟨m, ctx, ?_, ?_, ?_⟩
    · rw [← h.2]; exact hm
    · rw [← h.2]; exact hc
    · rw [hcw, h.1]

/-- Helper: a value-returning `writer` access leaves a state whose context
caches the returned writer and which carries a manager. -/
theorem writer_succ_state (st st1 : FlaskState) (w : AsyncWriter)
    (h : Whoosh.writer st = PyOutcome.returns (some w) st1) :
    ∃ m1 ctx1, st1.whoosh = some m1 ∧ st1.ctxTop = some ctx1 ∧
      ctx1.whoosh_writer = some w := by
  rcases hc : st.ctxTop with _ | ctx
  · rw [writer_raised st hc] at h; cases h
  · rcases hm : st.whoosh with _ | m
    · have hsetup := setup_whoosh_fresh st ctx hc hm
      rw [writer_eq st _ _ hsetup] at h
      exact writer_succ_state_aux
        { st with
            whoosh := some (WhooshManager.create st.searcher_max st.index0) }
        st1 (WhooshManager.create st.searcher_max st.index0) ctx w rfl hc h
    · exact writer_succ_state_aux st st1 m ctx w hm hc h

/-- Helper: the shape of a successful `get_searcher`. -/
theorem get_searcher_shape (m m2 : WhooshManager) (s : Searcher)
    (h : m.get_searcher = some (s, m2)) :
    ∃ w rest, m.search_pool = w :: rest ∧
      m2 = { m with search_pool := rest } := by
  unfold WhooshManager.get_searcher at h
  cases hp : m.search_pool with
  | nil => rw [hp] at h; cases h
  | cons w rest =>
      rw [hp] at h
      simp only [Option.some.injEq, Prod.mk.injEq] at h
      exact ⟨w, rest, rfl, h.2.symm⟩

/-- Helper: `teardown` when the context stack is empty. -/
theorem teardown_of_noctx (st : FlaskState) (hc : st.ctxTop = none) :
    Whoosh.teardown st = some st := by
  simp [Whoosh.teardown, hc]

/-- Helper: `teardown` when no searcher was acquired in the request. -/
theorem teardown_of_nosearcher (st : FlaskState) (ctx : AppCtx)
    (hc : st.ctxTop = some ctx) (hs : ctx.whoosh_searcher = none) :
    Whoosh.teardown st = some st := by
  simp [Whoosh.teardown, hc, hs]

/-- Helper: `teardown` when a searcher is cached but no manager exists. -/
theorem teardown_of_nowhoosh (st : FlaskState) (ctx : AppCtx) (s : Searcher)
    (hc : st.ctxTop = some ctx) (hs : ctx.whoosh_searcher = some s)
    (hm : st.whoosh = none) : Whoosh.teardown st = none := by
  simp [Whoosh.teardown, hc, hs, hm]

/-- Helper: `teardown` with a cached searcher returns it to the pool. -/
theorem teardown_of_searcher (st : FlaskState) (ctx : AppCtx) (s : Searcher)
    (m : WhooshManager) (hc : st.ctxTop = some ctx)
    (hs : ctx.whoosh_searcher = some s) (hm : st.whoosh = some m) :
    Whoosh.teardown st =
      (m.put_searcher s).map fun m2 => { st with whoosh := some m2 } := by
  simp only [Whoosh.teardown, hc, hs, hm]
  cases m.put_searcher s <;> simp

/-- Helper: the shape of a successful `put_searcher`. -/
theorem put_searcher_shape (m m2 : WhooshManager) (s : Searcher)
    (h : m.put_searcher s = some m2) :
    m2 = { m with search_pool := some s :: m.search_pool } := by
  unfold WhooshManager.put_searcher at h
  by_cases hlt : m.search_pool.length < m.search_max
  · rw [if_pos hlt] at h; injection h with h2; exact h2.symm
  · rw [if_neg hlt] at h; cases h

/-- C5: within a request with an active context, once the `searcher`
property has returned a value, accessing it again returns the same cached
searcher and leaves the whole state (the pool included) unchanged; the
same holds for the `writer` property (no new writer is created). -/
theorem request_accessors_memoized :
    (∀ (st st1 : FlaskState) (s : Searcher),
        Whoosh.searcher st = PyOutcome.returns (some s) st1 →
        Whoosh.searcher st1 = PyOutcome.returns (some s) st1) ∧
    (∀ (st st1 : FlaskState) (w : AsyncWriter),
        Whoosh.writer st = PyOutcome.returns (some w) st1 →
        Whoosh.writer st1 = PyOutcome.returns (some w) st1) := by
  constructor
  · intro st st1 s h
    obtain ⟨m1, ctx1, hm1, hc1, hs1⟩ := searcher_succ_state st st1 s h
    exact searcher_of_cached st1 m1 ctx1 s hm1 hc1 hs1
  · intro st st1 w h
    obtain ⟨m1, ctx1, hm1, hc1, hw1⟩ := writer_succ_state st st1 w h
    exact writer_of_cached st1 m1 ctx1 w hm1 hc1 hw1

/-- Witness for C5: a second access after a concrete first `searcher`
access and a concrete first `writer` access. -/
theorem request_accessors_memoized_witness :
    Whoosh.searcher
        (FlaskState.mk 1 ⟨0⟩ (some (WhooshManager.mk 1 ⟨0⟩ []))
          (some (AppCtx.mk (some (Searcher.mk 0 0)) none)) 0)
      = PyOutcome.returns (some (Searcher.mk 0 0))
          (FlaskState.mk 1 ⟨0⟩ (some (WhooshManager.mk 1 ⟨0⟩ []))
            (some (AppCtx.mk (some (Searcher.mk 0 0)) none)) 0) ∧
    Whoosh.writer
        (FlaskState.mk 1 ⟨0⟩ (some (WhooshManager.mk 1 ⟨0⟩ [none]))
          (some (AppCtx.mk none (some (AsyncWriter.mk 0 ⟨0⟩ false false)))) 1)
      = PyOutcome.returns (some (AsyncWriter.mk 0 ⟨0⟩ false false))
          (FlaskState.mk 1 ⟨0⟩ (some (WhooshManager.mk 1 ⟨0⟩ [none]))
            (some (AppCtx.mk none (some (AsyncWriter.mk 0 ⟨0⟩ false false)))) 1) :=
  ⟨request_accessors_memoized.1
      (FlaskState.mk 1 ⟨0⟩ none (some (AppCtx.mk none none)) 0) _ _
      (by decide),
   request_accessors_memoized.2
      (FlaskState.mk 1 ⟨0⟩ (some (WhooshManager.mk 1 ⟨0⟩ [none]))
        (some (AppCtx.mk none none)) 0) _ _
      (by decide)⟩

/-- C10 counterexample: at the concrete no-context state, neither property
returns `None` — both `searcher` and `writer` raise `RuntimeError` from
the unbound `current_app` proxy inside `_setup_whoosh`, before the
`ctx is not None` check is ever reached. -/
theorem no_context_accessors_counterexample :
    Whoosh.searcher (FlaskState.mk 10 ⟨0⟩ none none 5)
        = PyOutcome.raised (FlaskState.mk 10 ⟨0⟩ none none 5) ∧
    Whoosh.writer (FlaskState.mk 10 ⟨0⟩ none none 5)
        = PyOutcome.raised (FlaskState.mk 10 ⟨0⟩ none none 5) := by
  decide

/-- C10 (amended): when no request/application context is active
(`stack.top` is `None`), accessing the `searcher` or `writer` property
raises `RuntimeError` from the unbound `current_app` proxy inside
`_setup_whoosh` — it never returns `None` — and the error propagates
before any mutation: no slot is acquired, no writer is created, and the
pool's contents are unchanged (the `raised` outcome carries the untouched
state). -/
theorem no_context_accessors_raise (st : FlaskState) (h : st.ctxTop = none) :
    Whoosh.searcher st = PyOutcome.raised st ∧
    Whoosh.writer st = PyOutcome.raised st :=
  ⟨searcher_raised st h, writer_raised st h⟩

/-- Witness for C10 (amended): a manager-carrying state with no context;
the raise leaves the pool exactly as it was. -/
theorem no_context_accessors_raise_witness :
    Whoosh.searcher
        (FlaskState.mk 10 ⟨0⟩ (some (WhooshManager.mk 10 ⟨0⟩ [none])) none 5)
      = PyOutcome.raised
          (FlaskState.mk 10 ⟨0⟩ (some (WhooshManager.mk 10 ⟨0⟩ [none])) none
            5) ∧
    Whoosh.writer
        (FlaskState.mk 10 ⟨0⟩ (some (WhooshManager.mk 10 ⟨0⟩ [none])) none 5)
      = PyOutcome.raised
          (FlaskState.mk 10 ⟨0⟩ (some (WhooshManager.mk 10 ⟨0⟩ [none])) none
            5) :=
  no_context_accessors_raise
    (FlaskState.mk 10 ⟨0⟩ (some (WhooshManager.mk 10 ⟨0⟩ [none])) none 5) rfl

/-- C4: when teardown runs, a request that acquired no searcher (either no
context at all, or a context without the `whoosh_searcher` attribute) is a
no-op that never raises and leaves the state untouched; a request whose
first `searcher` access succeeded has its searcher released back to the
pool, restoring the pool to its pre-request size. -/
theorem teardown_releases_or_noop :
    (∀ st : FlaskState,
        (st.ctxTop = none ∨
          ∃ ctx, st.ctxTop = some ctx ∧ ctx.whoosh_searcher = none) →
        Whoosh.teardown st = some st) ∧
    (∀ (st st1 : FlaskState) (ctx : AppCtx) (m : WhooshManager)
        (s : Searcher),
        st.whoosh = some m → m.search_pool.length ≤ m.search_max →
        st.ctxTop = some ctx → ctx.whoosh_searcher = none →
        Whoosh.searcher st = PyOutcome.returns (some s) st1 →
        ((Whoosh.teardown st1).bind fun st2 => st2.whoosh).map
            (fun m2 => m2.search_pool.length)
          = some m.search_pool.length) := by
  constructor
  · intro st h
    rcases h with hnone | ⟨ctx, hc, hs⟩
    · exact teardown_of_noctx st hnone
    · exact teardown_of_nosearcher st ctx hc hs
  · intro st st1 ctx m s hm hbound hc hsn h
    rcases hg : m.get_searcher with _ | pr
    · rw [searcher_of_fresh_blocked st m ctx hm hc hsn hg] at h
      cases h
    · obtain ⟨s', m2⟩ := pr
      obtain ⟨w, rest, hpool, hm2⟩ := get_searcher_shape m m2 s' hg
      rw [searcher_of_fresh st m ctx s' m2 hm hc hsn hg] at h
      simp only [PyOutcome.returns.injEq, Option.some.injEq] at h
      obtain ⟨hs', hst1⟩ := h
      subst hst1
      subst hm2
      have hlt : rest.length < m.search_max := by
        rw [hpool] at hbound
        simp only [List.length_cons] at hbound
        omega
      simp [Whoosh.teardown, WhooshManager.put_searcher, hlt, hpool]

/-- Witness for C4: an empty-context teardown is the identity, and a
request on a fresh capacity-1 pool releases its searcher back. -/
theorem teardown_releases_or_noop_witness :
    Whoosh.teardown (FlaskState.mk 10 ⟨0⟩ none none 0)
        = some (FlaskState.mk 10 ⟨0⟩ none none 0) ∧
    ((Whoosh.teardown
          (FlaskState.mk 1 ⟨0⟩ (some (WhooshManager.mk 1 ⟨0⟩ []))
            (some (AppCtx.mk (some (Searcher.mk 0 0)) none)) 0)).bind
        fun st2 => st2.whoosh).map (fun m2 => m2.search_pool.length)
      = some 1 :=
  ⟨teardown_releases_or_noop.1 _ (Or.inl rfl),
   teardown_releases_or_noop.2
     (FlaskState.mk 1 ⟨0⟩ (some (WhooshManager.mk 1 ⟨0⟩ [none]))
       (some (AppCtx.mk none none)) 0)
     (FlaskState.mk 1 ⟨0⟩ (some (WhooshManager.mk 1 ⟨0⟩ []))
       (some (AppCtx.mk (some (Searcher.mk 0 0)) none)) 0)
     (AppCtx.mk none none) (WhooshManager.mk 1 ⟨0⟩ [none]) (Searcher.mk 0 0)
     rfl (by decide) rfl rfl (by decide)⟩

/-- C8: teardown leaves every per-request datum untouched — the context
object (hence the cached writer with its committed/cancelled flags) and
the writer-id supply are unchanged — and the only change anywhere is that
the manager's pool gains the request's cached searcher (or nothing at all
when no searcher was cached). -/
theorem teardown_frame (st st2 : FlaskState)
    (h : Whoosh.teardown st = some st2) :
    st2.ctxTop = st.ctxTop ∧
    st2.nextId = st.nextId ∧
    st2.searcher_max = st.searcher_max ∧
    st2.index0 = st.index0 ∧
    (st2.ctxTop.bind fun c => c.whoosh_writer)
        = (st.ctxTop.bind fun c => c.whoosh_writer) ∧
    (st2.whoosh.map fun m => m.index) = (st.whoosh.map fun m => m.index) ∧
    (st2.whoosh.map fun m => m.search_max)
        = (st.whoosh.map fun m => m.search_max) ∧
    ((st2.whoosh = st.whoosh ∧
        (st.ctxTop.bind fun c => c.whoosh_searcher) = none) ∨
      (st2.whoosh.map fun m => m.search_pool)
        = Option.map₂ (fun s pool => some s :: pool)
            (st.ctxTop.bind fun c => c.whoosh_searcher)
            (st.whoosh.map fun m => m.search_pool)) := by
  rcases hc : st.ctxTop with _ | ctx
  · rw [teardown_of_noctx st hc] at h
    injection h with h2
    subst h2
    simp [hc]
  · rcases hs : ctx.whoosh_searcher with _ | s
    · rw [teardown_of_nosearcher st ctx hc hs] at h
      injection h with h2
      subst h2
      simp [hc, hs]
    · rcases hm : st.whoosh with _ | m
      · rw [teardown_of_nowhoosh st ctx s hc hs hm] at h
        cases h
      · rw [teardown_of_searcher st ctx s m hc hs hm] at h
        rcases hput : m.put_searcher s with _ | m2
        · rw [hput] at h; cases h
        · rw [hput] at h
          have hshape := put_searcher_shape m m2 s hput
          subst hshape
          simp only [Option.map_some'] at h
          injection h with h2
          subst h2
          refine ⟨hc, rfl, rfl, rfl, ?_, ?_, ?_, Or.inr ?_⟩
          · simp [hc]
          · simp
          · simp
          · simp [hs, Option.map₂]

/-- Witness for C8: a request that cached a searcher and an uncommitted
writer; teardown returns the searcher and touches nothing else. -/
theorem teardown_frame_witness :
    (FlaskState.mk 1 ⟨0⟩
        (some (WhooshManager.mk 1 ⟨0⟩ [some (Searcher.mk 0 0)]))
        (some (AppCtx.mk (some (Searcher.mk 0 0))
          (some (AsyncWriter.mk 7 ⟨0⟩ false false)))) 3).ctxTop
      = (FlaskState.mk 1 ⟨0⟩ (some (WhooshManager.mk 1 ⟨0⟩ []))
          (some (AppCtx.mk (some (Searcher.mk 0 0))
            (some (AsyncWriter.mk 7 ⟨0⟩ false false)))) 3).ctxTop ∧
    (FlaskState.mk 1 ⟨0⟩
        (some (WhooshManager.mk 1 ⟨0⟩ [some (Searcher.mk 0 0)]))
        (some (AppCtx.mk (some (Searcher.mk 0 0))
          (some (AsyncWriter.mk 7 ⟨0⟩ false false)))) 3).nextId
      = (FlaskState.mk 1 ⟨0⟩ (some (WhooshManager.mk 1 ⟨0⟩ []))
          (some (AppCtx.mk (some (Searcher.mk 0 0))
            (some (AsyncWriter.mk 7 ⟨0⟩ false false)))) 3).nextId ∧
    (FlaskState.mk 1 ⟨0⟩
        (some (WhooshManager.mk 1 ⟨0⟩ [some (Searcher.mk 0 0)]))
        (some (AppCtx.mk (some (Searcher.mk 0 0))
          (some (AsyncWriter.mk 7 ⟨0⟩ false false)))) 3).searcher_max
      = (FlaskState.mk 1 ⟨0⟩ (some (WhooshManager.mk 1 ⟨0⟩ []))
          (some (AppCtx.mk (some (Searcher.mk 0 0))
            (some (AsyncWriter.mk 7 ⟨0⟩ false false)))) 3).searcher_max ∧
    (FlaskState.mk 1 ⟨0⟩
        (some (WhooshManager.mk 1 ⟨0⟩ [some (Searcher.mk 0 0)]))
        (some (AppCtx.mk (some (Searcher.mk 0 0))
          (some (AsyncWriter.mk 7 ⟨0⟩ false false)))) 3).index0
      = (FlaskState.mk 1 ⟨0⟩ (some (WhooshManager.mk 1 ⟨0⟩ []))
          (some (AppCtx.mk (some (Searcher.mk 0 0))
            (some (AsyncWriter.mk 7 ⟨0⟩ false false)))) 3).index0 ∧
    ((FlaskState.mk 1 ⟨0⟩
        (some (WhooshManager.mk 1 ⟨0⟩ [some (Searcher.mk 0 0)]))
        (some (AppCtx.mk (some (Searcher.mk 0 0))
          (some (AsyncWriter.mk 7 ⟨0⟩ false false)))) 3).ctxTop.bind
        fun c => c.whoosh_writer)
      = ((FlaskState.mk 1 ⟨0⟩ (some (WhooshManager.mk 1 ⟨0⟩ []))
          (some (AppCtx.mk (some (Searcher.mk 0 0))
            (some (AsyncWriter.mk 7 ⟨0⟩ false false)))) 3).ctxTop.bind
          fun c => c.whoosh_writer) ∧
    ((FlaskState.mk 1 ⟨0⟩
        (some (WhooshManager.mk 1 ⟨0⟩ [some (Searcher.mk 0 0)]))
        (some (AppCtx.mk (some (Searcher.mk 0 0))
          (some (AsyncWriter.mk 7 ⟨0⟩ false false)))) 3).whoosh.map
        fun m => m.index)
      = ((FlaskState.mk 1 ⟨0⟩ (some (WhooshManager.mk 1 ⟨0⟩ []))
          (some (AppCtx.mk (some (Searcher.mk 0 0))
            (some (AsyncWriter.mk 7 ⟨0⟩ false false)))) 3).whoosh.map
          fun m => m.index) ∧
    ((FlaskState.mk 1 ⟨0⟩
        (some (WhooshManager.mk 1 ⟨0⟩ [some (Searcher.mk 0 0)]))
        (some (AppCtx.mk (some (Searcher.mk 0 0))
          (some (AsyncWriter.mk 7 ⟨0⟩ false false)))) 3).whoosh.map
        fun m => m.search_max)
      = ((FlaskState.mk 1 ⟨0⟩ (some (WhooshManager.mk 1 ⟨0⟩ []))
          (some (AppCtx.mk (some (Searcher.mk 0 0))
            (some (AsyncWriter.mk 7 ⟨0⟩ false false)))) 3).whoosh.map
          fun m => m.search_max) ∧
    (((FlaskState.mk 1 ⟨0⟩
        (some (WhooshManager.mk 1 ⟨0⟩ [some (Searcher.mk 0 0)]))
        (some (AppCtx.mk (some (Searcher.mk 0 0))
          (some (AsyncWriter.mk 7 ⟨0⟩ false false)))) 3).whoosh
        = (FlaskState.mk 1 ⟨0⟩ (some (WhooshManager.mk 1 ⟨0⟩ []))
            (some (AppCtx.mk (some (Searcher.mk 0 0))
              (some (AsyncWriter.mk 7 ⟨0⟩ false false)))) 3).whoosh ∧
      ((FlaskState.mk 1 ⟨0⟩ (some (WhooshManager.mk 1 ⟨0⟩ []))
          (some (AppCtx.mk (some (Searcher.mk 0 0))
            (some (AsyncWriter.mk 7 ⟨0⟩ false false)))) 3).ctxTop.bind
          fun c => c.whoosh_searcher) = none) ∨
     ((FlaskState.mk 1 ⟨0⟩
        (some (WhooshManager.mk 1 ⟨0⟩ [some (Searcher.mk 0 0)]))
        (some (AppCtx.mk (some (Searcher.mk 0 0))
          (some (AsyncWriter.mk 7 ⟨0⟩ false false)))) 3).whoosh.map
        fun m => m.search_pool)
      = Option.map₂ (fun s pool => some s :: pool)
          ((FlaskState.mk 1 ⟨0⟩ (some (WhooshManager.mk 1 ⟨0⟩ []))
            (some (AppCtx.mk (some (Searcher.mk 0 0))
              (some (AsyncWriter.mk 7 ⟨0⟩ false false)))) 3).ctxTop.bind
            fun c => c.whoosh_searcher)
          ((FlaskState.mk 1 ⟨0⟩ (some (WhooshManager.mk 1 ⟨0⟩ []))
            (some (AppCtx.mk (some (Searcher.mk 0 0))
              (some (AsyncWriter.mk 7 ⟨0⟩ false false)))) 3).whoosh.map
            fun m => m.search_pool)) :=
  teardown_frame
    (FlaskState.mk 1 ⟨0⟩ (some (WhooshManager.mk 1 ⟨0⟩ []))
      (some (AppCtx.mk (some (Searcher.mk 0 0))
        (some (AsyncWriter.mk 7 ⟨0⟩ false false)))) 3)
    (FlaskState.mk 1 ⟨0⟩
      (some (WhooshManager.mk 1 ⟨0⟩ [some (Searcher.mk 0 0)]))
      (some (AppCtx.mk (some (Searcher.mk 0 0))
        (some (AsyncWriter.mk 7 ⟨0⟩ false false)))) 3)
    (by decide)
